import Mathlib

/-!
Shallow embedding of the InfoEx auto-weather normalization pipeline
(infoex-autowx.py): raw time-series reduction, derived quantities
(HN24, wind averages), unit conversion, destination rounding, the
fixed 29-cell record assembly, configuration setup and the fetch
window computation.

Modelling conventions:
* Python floats are modelled as exact rationals; Python None is
  Option.none.
* Python dicts used as string-keyed maps are modelled as insertion
  ordered association lists (setKey updates the first occurrence in
  place or appends, which is dict assignment semantics).
* The comma separated desired_data configuration string is modelled as
  the list of element codes it denotes (the split is pure surface
  syntax of the configuration file and the string is never changed
  between being read and being split).
* External collaborators (the SOAP/REST transports, strftime
  formatting, pytz timezone validation) are parameters of the
  embedding, as the spec declares them out of scope.
-/

namespace AutoWx

/-- One raw sample of an upstream series: a timestamp and an optional
value (None for a missing reading). -/
structure RawSample where
  dateTime : ℤ
  value : Option ℚ
  deriving DecidableEq, Repr

/-- Source f_to_c: convert Fahrenheit to Celsius. -/
def f_to_c (f : ℚ) : ℚ := (f - 32) * 5 / 9

/-- Source in_to_cm: convert inches to centimeters. -/
def in_to_cm (inches : ℚ) : ℚ := inches * (254 / 100)

/-- Source in_to_mm: convert inches to millimeters. -/
def in_to_mm (inches : ℚ) : ℚ := inches * (254 / 100) * 10

/-- Source ms_to_mph: convert meters per second to miles per hour. -/
def ms_to_mph (ms : ℚ) : ℚ := ms * (2236936 / 1000000)

/-- Source kn_to_mph: convert knots to miles per hour. -/
def kn_to_mph (kn : ℚ) : ℚ := kn * (1150779 / 1000000)

/-- Source mm_to_cm: convert millimeters to centimeters. -/
def mm_to_cm (mm : ℚ) : ℚ := mm / 10

/-- Insert a sample into a descending-by-timestamp sorted list, after
any samples with an equal or larger timestamp (keeps stability). -/
def sortedInsertDesc (s : RawSample) : List RawSample → List RawSample
  | [] => [s]
  | t :: ts => if t.dateTime < s.dateTime then s :: t :: ts else t :: sortedInsertDesc s ts

/-- Stable descending sort by timestamp: the semantics of the Python
call sorted(values, key dateTime, reverse True) in get_nrcs_data. -/
def sortByDateTimeDesc (values : List RawSample) : List RawSample :=
  values.foldl (fun acc s => sortedInsertDesc s acc) []

/-- Per-element body of get_nrcs_data: if the returned series is
nonempty, sort it newest first and take the value of the first sample
(no null filtering happens in the source); otherwise record None. -/
def get_nrcs_element (values : List RawSample) : Option ℚ :=
  if values.isEmpty then none
  else ((sortByDateTimeDesc values).headD ⟨0, none⟩).value

/-- Python dict assignment on an association list: replace the value at
the first occurrence of the key, else append the binding. -/
def setKey (m : List (String × α)) (k : String) (v : α) : List (String × α) :=
  match m with
  | [] => [(k, v)]
  | p :: rest => if p.1 = k then (k, v) :: rest else p :: setKey rest k v

/-- Python dict lookup on an association list. -/
def lookupKey (m : List (String × α)) (k : String) : Option α :=
  match m with
  | [] => none
  | p :: rest => if p.1 = k then some p.2 else lookupKey rest k

/-- Source get_nrcs_data, with the SOAP transport abstracted as a
function from element code to the raw series it returns: one
get_nrcs_element reduction per desired element. -/
def get_nrcs_data (desired_data : List String) (fetch : String → List RawSample) :
    List (String × Option ℚ) :=
  desired_data.foldl (fun remote e => setKey remote e (get_nrcs_element (fetch e))) []

/- ### Association list lemmas -/

theorem lookupKey_setKey_self (m : List (String × α)) (k : String) (v : α) :
    lookupKey (setKey m k v) k = some v := by
  induction m with
  | nil => simp [setKey, lookupKey]
  | cons p rest ih =>
    by_cases h : p.1 = k
    · simp [setKey, lookupKey, h]
    · simp [setKey, lookupKey, h, ih]

theorem lookupKey_setKey_ne (m : List (String × α)) {k k' : String} (v : α)
    (h : k' ≠ k) : lookupKey (setKey m k v) k' = lookupKey m k' := by
  have h2 : ¬(k = k') := fun hh => h hh.symm
  induction m with
  | nil => simp [setKey, lookupKey, h2]
  | cons p rest ih =>
    by_cases hp : p.1 = k
    · subst hp
      simp [setKey, lookupKey, h, h2]
    · by_cases hp' : p.1 = k'
      · simp [setKey, lookupKey, hp, hp', h]
      · simp [setKey, lookupKey, hp, hp', ih]

theorem setKey_ne_nil (m : List (String × α)) (k : String) (v : α) :
    setKey m k v ≠ [] := by
  cases m with
  | nil => simp [setKey]
  | cons p rest =>
    by_cases h : p.1 = k <;> simp [setKey, h]

/- ### Sorting lemmas for the NRCS reducer -/

theorem mem_sortedInsertDesc {x s : RawSample} {l : List RawSample} :
    x ∈ sortedInsertDesc s l ↔ x = s ∨ x ∈ l := by
  induction l with
  | nil => simp [sortedInsertDesc]
  | cons t ts ih =>
    by_cases h : t.dateTime < s.dateTime
    · simp [sortedInsertDesc, h]
    · simp [sortedInsertDesc, h, ih]
      tauto

/-- Descending sorted by timestamp. -/
abbrev DescSorted (l : List RawSample) : Prop :=
  List.Pairwise (fun a b => b.dateTime ≤ a.dateTime) l

theorem descSorted_sortedInsertDesc {s : RawSample} {l : List RawSample}
    (h : DescSorted l) : DescSorted (sortedInsertDesc s l) := by
  induction l with
  | nil => simp [sortedInsertDesc, DescSorted]
  | cons t ts ih =>
    rcases List.pairwise_cons.1 h with ⟨ht, hts⟩
    unfold sortedInsertDesc
    by_cases hc : t.dateTime < s.dateTime
    · rw [if_pos hc]
      refine List.pairwise_cons.2 ⟨?_, h⟩
      intro y hy
      rcases List.mem_cons.1 hy with rfl | hy'
      · exact le_of_lt hc
      · exact le_trans (ht y hy') (le_of_lt hc)
    · rw [if_neg hc]
      refine List.pairwise_cons.2 ⟨?_, ih hts⟩
      intro y hy
      rcases mem_sortedInsertDesc.1 hy with rfl | hy'
      · exact not_lt.1 hc
      · exact ht y hy'

theorem mem_sortByDateTimeDesc {x : RawSample} {l : List RawSample} :
    x ∈ sortByDateTimeDesc l ↔ x ∈ l := by
  have key : ∀ (l : List RawSample) (acc : List RawSample),
      x ∈ l.foldl (fun acc s => sortedInsertDesc s acc) acc ↔ x ∈ acc ∨ x ∈ l := by
    intro l
    induction l with
    | nil => simp
    | cons s ss ih =>
      intro acc
      simp only [List.foldl_cons, ih, mem_sortedInsertDesc, List.mem_cons]
      tauto
  simpa [sortByDateTimeDesc] using key l []

theorem descSorted_sortByDateTimeDesc (l : List RawSample) :
    DescSorted (sortByDateTimeDesc l) := by
  have key : ∀ (l : List RawSample) (acc : List RawSample), DescSorted acc →
      DescSorted (l.foldl (fun acc s => sortedInsertDesc s acc) acc) := by
    intro l
    induction l with
    | nil => exact fun acc h => h
    | cons s ss ih =>
      intro acc hacc
      exact ih _ (descSorted_sortedInsertDesc hacc)
  exact key l [] (by simp [DescSorted])

/-- The head of the descending sort is a member of the series and has
the maximum timestamp; therefore get_nrcs_element returns the value of
a maximum-timestamp sample (null or not). -/
theorem get_nrcs_element_eq_max_sample (values : List RawSample) (h : values ≠ []) :
    ∃ s, s ∈ values ∧ get_nrcs_element values = s.value ∧
      ∀ t ∈ values, t.dateTime ≤ s.dateTime := by
  obtain ⟨x, hx⟩ := List.exists_mem_of_ne_nil values h
  have hxs : x ∈ sortByDateTimeDesc values := mem_sortByDateTimeDesc.2 hx
  obtain ⟨hd, tl, hsort⟩ := List.exists_cons_of_ne_nil (List.ne_nil_of_mem hxs)
  refine ⟨hd, ?_, ?_, ?_⟩
  · exact mem_sortByDateTimeDesc.1 (hsort ▸ List.mem_cons_self hd tl)
  · simp [get_nrcs_element, h, hsort]
  · intro t ht
    have hts : t ∈ sortByDateTimeDesc values := mem_sortByDateTimeDesc.2 ht
    rw [hsort] at hts
    rcases List.mem_cons.1 hts with rfl | hts'
    · exact le_refl _
    · have := descSorted_sortByDateTimeDesc values
      rw [hsort] at this
      exact (List.pairwise_cons.1 this).1 t hts'

/- ### MesoWest provider -/

/-- The station configuration record assembled by setup_config.
desired_data is the list of element codes denoted by the comma
separated configuration string. -/
structure Station where
  provider : String
  units : String
  desired_data : List String
  hn24 : Bool
  wind_mode : String
  num_hrs_to_fetch : ℤ
  tz : String
  deriving DecidableEq, Repr

/-- The mutable state threaded through the get_mesowest_data element
loop: the result dict plus the accumulator lists for wind averaging
and HN24. -/
structure MWState where
  remote : List (String × Option ℚ)
  wind_speed_values : List ℚ
  wind_gust_speed_values : List ℚ
  wind_direction_values : List ℚ
  hn24_values : List ℚ
  deriving DecidableEq, Repr

/-- The in-loop unit conversions of get_mesowest_data: wind speeds and
gusts through kn_to_mph, snow depth through mm_to_cm when the unit
system is metric. -/
def mw_convert (element_cd units : String) (v : ℚ) : ℚ :=
  let v1 := if element_cd = "wind_speed" ∨ element_cd = "wind_gust" then kn_to_mph v else v
  if element_cd = "snow_depth" ∧ units = "metric" then mm_to_cm v1 else v1

/-- The wind-averaging accumulation branch of the get_mesowest_data
loop body (only active in average wind mode). -/
def mw_record_wind (element_cd wind_mode : String) (val : ℚ) (st : MWState) : MWState :=
  if wind_mode = "average" then
    if element_cd = "wind_speed" then
      { st with wind_speed_values := st.wind_speed_values ++ [val] }
    else if element_cd = "wind_gust" then
      { st with wind_gust_speed_values := st.wind_gust_speed_values ++ [val] }
    else if element_cd = "wind_direction" then
      { st with wind_direction_values := st.wind_direction_values ++ [val] }
    else st
  else st

/-- The per-sample loop of get_mesowest_data for one element: skip
null samples, convert units, accumulate wind and HN24 values, and
persist the sample converted value when its index is pos (the index of
the most recent observation). -/
def mw_loop (element_cd units wind_mode : String) (pos : Nat) :
    Nat → List (Option ℚ) → MWState → MWState
  | _, [], st => st
  | idx, none :: rest, st => mw_loop element_cd units wind_mode pos (idx + 1) rest st
  | idx, some x :: rest, st =>
    let val := mw_convert element_cd units x
    let st1 := mw_record_wind element_cd wind_mode val st
    let st2 := if element_cd = "snow_depth" then
        { st1 with hn24_values := st1.hn24_values ++ [val] } else st1
    let st3 := if idx = pos then
        { st2 with remote := setKey st2.remote element_cd (some val) } else st2
    mw_loop element_cd units wind_mode pos (idx + 1) rest st3

/-- Python falsiness of an optional float: None and 0.0 are falsy. -/
def pyFalsy : Option ℚ → Bool
  | none => true
  | some x => x = 0

/-- Per-element body of get_mesowest_data: missing key means None,
otherwise run the sample loop and then null the element whenever the
raw sample at pos is falsy (None or a zero reading). -/
def mw_element (element_cd units wind_mode : String) (pos : Nat)
    (obs : Option (List (Option ℚ))) (st : MWState) : MWState :=
  match obs with
  | none => { st with remote := setKey st.remote element_cd none }
  | some series =>
    let st1 := mw_loop element_cd units wind_mode pos 0 series st
    if pyFalsy (series.getD pos none) then
      { st1 with remote := setKey st1.remote element_cd none }
    else st1

/-- Arithmetic mean of a list when nonempty, as in the wind averaging
blocks of get_mesowest_data. -/
def avgOpt (l : List ℚ) : Option ℚ :=
  if l.length > 0 then some (l.sum / (l.length : ℚ)) else none

/-- The HN24 block of get_mesowest_data: first collected value minus
last collected value, negative results clamped to zero, absent when no
value was collected. -/
def hn24_of_values (l : List ℚ) : Option ℚ :=
  if l.length > 0 then
    let h := l.headD 0 - l.getLastD 0
    some (if h < 0 then 0 else h)
  else none

/-- Source get_mesowest_data, with the REST transport abstracted: the
parsed OBSERVATIONS object is an association list from key names
(element code plus suffix set_1) to raw series, and pos is the index
of the last entry of the date_time series (all series have length
pos + 1 in a well-formed response). -/
def get_mesowest_data (station : Station)
    (observations : List (String × List (Option ℚ))) (pos : Nat) :
    List (String × Option ℚ) :=
  let st0 : MWState := ⟨[], [], [], [], []⟩
  let st := station.desired_data.foldl
    (fun st e => mw_element e station.units station.wind_mode pos
      (lookupKey observations (e ++ "_set_1")) st) st0
  let r := st.remote
  let r := match hn24_of_values st.hn24_values with
    | some h => setKey r "hn24" (some h)
    | none => r
  let r := match avgOpt st.wind_speed_values with
    | some a => setKey r "wind_speed" (some a)
    | none => r
  let r := match avgOpt st.wind_gust_speed_values with
    | some a => setKey r "wind_gust" (some a)
    | none => r
  match avgOpt st.wind_direction_values with
    | some a => setKey r "wind_direction" (some a)
    | none => r

/- ### MesoWest loop lemmas -/

theorem mw_record_wind_remote (element_cd wind_mode : String) (val : ℚ) (st : MWState) :
    (mw_record_wind element_cd wind_mode val st).remote = st.remote := by
  unfold mw_record_wind
  split <;> (try split) <;> (try split) <;> (try split) <;> rfl

theorem mw_record_wind_hn24 (element_cd wind_mode : String) (val : ℚ) (st : MWState) :
    (mw_record_wind element_cd wind_mode val st).hn24_values = st.hn24_values := by
  unfold mw_record_wind
  split <;> (try split) <;> (try split) <;> (try split) <;> rfl

/-- The loop writes the result dict only at index pos, recording the
converted value of the sample found there (a null sample at pos writes
nothing). -/
theorem mw_loop_remote (element_cd units wind_mode : String) (pos : Nat)
    (series : List (Option ℚ)) :
    ∀ (idx : Nat) (st : MWState),
      (mw_loop element_cd units wind_mode pos idx series st).remote =
        match (if idx ≤ pos then series.getD (pos - idx) none else none) with
        | some x => setKey st.remote element_cd (some (mw_convert element_cd units x))
        | none => st.remote := by
  induction series with
  | nil =>
    intro idx st
    simp [mw_loop]
  | cons v rest ih =>
    intro idx st
    cases v with
    | none =>
      rw [mw_loop, ih]
      rcases Nat.lt_trichotomy idx pos with hlt | heq | hgt
      · have h1 : idx ≤ pos := le_of_lt hlt
        have h2 : idx + 1 ≤ pos := hlt
        have h3 : pos - idx = (pos - (idx + 1)) + 1 := by omega
        simp [h1, h2, h3]
      · subst heq
        have h2 : ¬(idx + 1 ≤ idx) := by omega
        simp [h2, List.getD]
      · have h1 : ¬(idx ≤ pos) := by omega
        have h2 : ¬(idx + 1 ≤ pos) := by omega
        simp [h1, h2]
    | some x =>
      rw [mw_loop]
      rcases Nat.lt_trichotomy idx pos with hlt | heq | hgt
      · have hne : ¬(idx = pos) := by omega
        rw [if_neg hne, ih]
        have h1 : idx ≤ pos := le_of_lt hlt
        have h2 : idx + 1 ≤ pos := hlt
        have h3 : pos - idx = (pos - (idx + 1)) + 1 := by omega
        split <;> simp_all [mw_record_wind_remote, h3]
        · split <;> simp_all [mw_record_wind_remote]
        · split <;> simp_all [mw_record_wind_remote]
      · subst heq
        rw [if_pos rfl, ih]
        have h2 : ¬(idx + 1 ≤ idx) := by omega
        have hr : (if idx ≤ idx then (some x :: rest).getD (idx - idx) none else none)
            = some x := by simp [List.getD]
        rw [hr]
        simp [h2]
        split <;> simp [mw_record_wind_remote]
      · have hne : ¬(idx = pos) := by omega
        rw [if_neg hne, ih]
        have h1 : ¬(idx ≤ pos) := by omega
        have h2 : ¬(idx + 1 ≤ pos) := by omega
        simp [h1, h2]
        split <;> simp [mw_record_wind_remote]

theorem mw_record_wind_snow (wind_mode : String) (val : ℚ) (st : MWState) :
    mw_record_wind "snow_depth" wind_mode val st = st := by
  unfold mw_record_wind
  split <;> simp

/-- For the snow depth element the loop collects exactly the non-null
samples, unit converted, in series order. -/
theorem mw_loop_snow_hn24 (units wind_mode : String) (pos : Nat)
    (series : List (Option ℚ)) :
    ∀ (idx : Nat) (st : MWState),
      (mw_loop "snow_depth" units wind_mode pos idx series st).hn24_values =
        st.hn24_values ++ (series.filterMap id).map (mw_convert "snow_depth" units) := by
  induction series with
  | nil => intro idx st; simp [mw_loop]
  | cons v rest ih =>
    intro idx st
    cases v with
    | none => rw [mw_loop, ih]; simp
    | some x =>
      rw [mw_loop, ih]
      simp [mw_record_wind_snow]
      split <;> simp

/-- For the snow depth element the loop leaves all three wind
accumulator lists unchanged. -/
theorem mw_loop_snow_winds (units wind_mode : String) (pos : Nat)
    (series : List (Option ℚ)) :
    ∀ (idx : Nat) (st : MWState),
      (mw_loop "snow_depth" units wind_mode pos idx series st).wind_speed_values
          = st.wind_speed_values ∧
      (mw_loop "snow_depth" units wind_mode pos idx series st).wind_gust_speed_values
          = st.wind_gust_speed_values ∧
      (mw_loop "snow_depth" units wind_mode pos idx series st).wind_direction_values
          = st.wind_direction_values := by
  induction series with
  | nil => intro idx st; simp [mw_loop]
  | cons v rest ih =>
    intro idx st
    cases v with
    | none => rw [mw_loop]; exact ih (idx + 1) st
    | some x =>
      rw [mw_loop]
      simp [mw_record_wind_snow]
      split <;> exact ih (idx + 1) _

/-- mw_element only ever writes the result dict at its own element
code. -/
theorem mw_element_remote_lookup_ne (element_cd units wind_mode : String) (pos : Nat)
    (obs : Option (List (Option ℚ))) (st : MWState) {k : String} (h : k ≠ element_cd) :
    lookupKey (mw_element element_cd units wind_mode pos obs st).remote k =
      lookupKey st.remote k := by
  cases obs with
  | none => simp [mw_element, lookupKey_setKey_ne _ _ h]
  | some series =>
    have hst1 : lookupKey (mw_loop element_cd units wind_mode pos 0 series st).remote k
        = lookupKey st.remote k := by
      rw [mw_loop_remote]
      split
      · exact lookupKey_setKey_ne _ _ h
      · rfl
    simp only [mw_element]
    split
    · rw [lookupKey_setKey_ne _ _ h]
      exact hst1
    · exact hst1

theorem mw_element_snow_hn24 (units wind_mode : String) (pos : Nat)
    (series : List (Option ℚ)) (st : MWState) :
    (mw_element "snow_depth" units wind_mode pos (some series) st).hn24_values =
      st.hn24_values ++ (series.filterMap id).map (mw_convert "snow_depth" units) := by
  simp only [mw_element]
  split
  · simp [mw_loop_snow_hn24]
  · simp [mw_loop_snow_hn24]

theorem mw_element_snow_winds (units wind_mode : String) (pos : Nat)
    (series : List (Option ℚ)) (st : MWState) :
    (mw_element "snow_depth" units wind_mode pos (some series) st).wind_speed_values
        = st.wind_speed_values ∧
    (mw_element "snow_depth" units wind_mode pos (some series) st).wind_gust_speed_values
        = st.wind_gust_speed_values ∧
    (mw_element "snow_depth" units wind_mode pos (some series) st).wind_direction_values
        = st.wind_direction_values := by
  simp only [mw_element]
  split
  · simpa using mw_loop_snow_winds units wind_mode pos series 0 st
  · simpa using mw_loop_snow_winds units wind_mode pos series 0 st

/-- Central HN24 lemma: for a mesowest station asking only for snow
depth, the returned mapping carries the key hn24 exactly when the raw
series has a non-null sample, and its value is then the first
collected (converted) value minus the last, clamped at zero. The
Station hn24 flag b is arbitrary: the computation never consults
it. -/
theorem mesowest_hn24_lookup (units wind_mode : String) (b : Bool)
    (series : List (Option ℚ)) (pos : Nat) :
    lookupKey (get_mesowest_data ⟨"mesowest", units, ["snow_depth"], b, wind_mode, 3, "UTC"⟩
        [("snow_depth_set_1", series)] pos) "hn24" =
      (if _h : ((series.filterMap id).map (mw_convert "snow_depth" units)) = [] then none
       else
        some (some
          (if ((series.filterMap id).map (mw_convert "snow_depth" units)).headD 0 -
              ((series.filterMap id).map (mw_convert "snow_depth" units)).getLastD 0 < 0
           then 0
           else ((series.filterMap id).map (mw_convert "snow_depth" units)).headD 0 -
              ((series.filterMap id).map (mw_convert "snow_depth" units)).getLastD 0))) := by
  have happ : ("snow_depth" ++ "_set_1" : String) = "snow_depth_set_1" := rfl
  unfold get_mesowest_data
  simp only [List.foldl_cons, List.foldl_nil, happ]
  set nn := (series.filterMap id).map (mw_convert "snow_depth" units) with hnn
  set st0 : MWState := ⟨[], [], [], [], []⟩ with hst0
  set st := mw_element "snow_depth" units wind_mode pos
      (lookupKey [("snow_depth_set_1", series)] "snow_depth_set_1") st0 with hst
  have hobs : lookupKey [("snow_depth_set_1", series)] "snow_depth_set_1" = some series := by
    simp [lookupKey]
  have hh : st.hn24_values = nn := by
    rw [hst, hobs, mw_element_snow_hn24, hst0]
    rfl
  have hw := mw_element_snow_winds units wind_mode pos series st0
  have hw1 : st.wind_speed_values = [] := by rw [hst, hobs]; exact hw.1
  have hw2 : st.wind_gust_speed_values = [] := by rw [hst, hobs]; exact hw.2.1
  have hw3 : st.wind_direction_values = [] := by rw [hst, hobs]; exact hw.2.2
  have hr : lookupKey st.remote "hn24" = none := by
    rw [hst, hobs, mw_element_remote_lookup_ne _ _ _ _ _ _ (by decide)]
    rfl
  rw [hh, hw1, hw2, hw3]
  by_cases hc : nn = []
  · simp [hc, hn24_of_values, avgOpt, hr]
  · have hlen : nn.length > 0 := List.length_pos.mpr hc
    simp only [hn24_of_values, avgOpt, hlen, if_pos hlen]
    simp [hc, lookupKey_setKey_self]

/- ### Record assembly -/

/-- One cell of the InfoEx CSV record: empty (Python None), a string,
or a number. -/
inductive Cell where
  | null : Cell
  | str : String → Cell
  | num : ℚ → Cell
  deriving DecidableEq, Repr

/-- The fmap built by setup_infoex_fields_mapping: InfoEx field name to
record position, zero indexed. -/
def infoex_fmap : List (String × Nat) :=
  [("Location UUID", 0), ("obDate", 1), ("obTime", 2), ("timeZone", 3),
   ("tempMaxHour", 4), ("tempMaxHourUnit", 5), ("tempMinHour", 6), ("tempMinHourUnit", 7),
   ("tempPres", 8), ("tempPresUnit", 9), ("precipitationGauge", 10),
   ("precipitationGaugeUnit", 11), ("windSpeedNum", 12), ("windSpeedUnit", 13),
   ("windDirectionNum", 14), ("hS", 15), ("hsUnit", 16), ("baro", 17), ("baroUnit", 18),
   ("rH", 19), ("windGustSpeedNum", 20), ("windGustSpeedNumUnit", 21),
   ("windGustDirNum", 22), ("dewPoint", 23), ("dewPointUnit", 24), ("hn24Auto", 25),
   ("hn24AutoUnit", 26), ("hstAuto", 27), ("hstAutoUnit", 28)]

/-- The record position of an InfoEx field name; 29 (out of range, so
a List.set with it is a no-op) for unknown names, which never occur in
the source. -/
def fidx (mapping : List (String × Nat)) (k : String) : Nat :=
  (lookupKey mapping k).getD 29

/-- Source setup_infoex_fields_mapping: the field map together with
the 29 cell record preset to its imperial defaults (positions not
listed stay None). -/
def setup_infoex_fields_mapping (location_uuid : String) :
    List (String × Nat) × List Cell :=
  let final_data := List.replicate 29 Cell.null
  let final_data := final_data.set 0 (Cell.str location_uuid)
  let final_data := final_data.set 3 (Cell.str "Pacific")
  let final_data := final_data.set 5 (Cell.str "F")
  let final_data := final_data.set 7 (Cell.str "F")
  let final_data := final_data.set 9 (Cell.str "F")
  let final_data := final_data.set 11 (Cell.str "in")
  let final_data := final_data.set 13 (Cell.str "mph")
  let final_data := final_data.set 16 (Cell.str "in")
  let final_data := final_data.set 18 (Cell.str "inHg")
  let final_data := final_data.set 21 (Cell.str "mph")
  let final_data := final_data.set 24 (Cell.str "F")
  let final_data := final_data.set 26 (Cell.str "in")
  let final_data := final_data.set 28 (Cell.str "in")
  (infoex_fmap, final_data)

/-- Source switch_units_to_metric: overwrite the metric capable unit
label cells with their metric counterparts. -/
def switch_units_to_metric (data_map : List Cell) (mapping : List (String × Nat)) :
    List Cell :=
  let data_map := data_map.set (fidx mapping "tempMaxHourUnit") (Cell.str "C")
  let data_map := data_map.set (fidx mapping "tempMinHourUnit") (Cell.str "C")
  let data_map := data_map.set (fidx mapping "tempPresUnit") (Cell.str "C")
  let data_map := data_map.set (fidx mapping "precipitationGaugeUnit") (Cell.str "mm")
  let data_map := data_map.set (fidx mapping "hsUnit") (Cell.str "cm")
  let data_map := data_map.set (fidx mapping "windSpeedUnit") (Cell.str "m/s")
  let data_map := data_map.set (fidx mapping "windGustSpeedNumUnit") (Cell.str "m/s")
  let data_map := data_map.set (fidx mapping "dewPointUnit") (Cell.str "C")
  let data_map := data_map.set (fidx mapping "hn24AutoUnit") (Cell.str "cm")
  let data_map := data_map.set (fidx mapping "hstAutoUnit") (Cell.str "cm")
  data_map

/-- Source setup_infoex_counterparts_mapping: provider element code to
InfoEx field name. -/
def setup_infoex_counterparts_mapping (provider : String) : List (String × String) :=
  if provider = "nrcs" then
    [("PREC", "precipitationGauge"), ("TOBS", "tempPres"), ("TMAX", "tempMaxHour"),
     ("TMIN", "tempMinHour"), ("SNWD", "hS"), ("PRES", "baro"), ("RHUM", "rH"),
     ("WSPD", "windSpeedNum"), ("WDIR", "windDirectionNum")]
  else if provider = "mesowest" then
    [("precip_accum", "precipitationGauge"), ("air_temp", "tempPres"),
     ("air_temp_high_24_hour", "tempMaxHour"), ("air_temp_low_24_hour", "tempMinHour"),
     ("snow_depth", "hS"), ("pressure", "baro"), ("relative_humidity", "rH"),
     ("wind_speed", "windSpeedNum"), ("wind_direction", "windDirectionNum"),
     ("wind_gust", "windGustSpeedNum"), ("hn24", "hn24Auto")]
  else if provider = "python" then
    [("precipitationGauge", "precipitationGauge"), ("tempPres", "tempPres"),
     ("tempMaxHour", "tempMaxHour"), ("tempMinHour", "tempMinHour"), ("hS", "hS"),
     ("baro", "baro"), ("rH", "rH"), ("windSpeedNum", "windSpeedNum"),
     ("windDirectionNum", "windDirectionNum"), ("windGustSpeedNum", "windGustSpeedNum")]
  else []

/-- Source convert_nrcs_units_to_metric. -/
def convert_nrcs_units_to_metric (element_cd : String) (value : ℚ) : ℚ :=
  if element_cd = "TOBS" then f_to_c value
  else if element_cd = "SNWD" then in_to_cm value
  else if element_cd = "PREC" then in_to_mm value
  else value

/-- Python round to integer: round half to even on the exact value. -/
def pyRoundInt (q : ℚ) : ℤ :=
  let f := ⌊q⌋
  if q - f < 1 / 2 then f
  else if 1 / 2 < q - f then f + 1
  else if f % 2 = 0 then f else f + 1

/-- Python round with a digit count: scale, round half to even,
unscale. -/
def pyRound (ndigits : ℕ) (q : ℚ) : ℚ :=
  (pyRoundInt (q * 10 ^ ndigits) : ℚ) / 10 ^ ndigits

/-- Elements rounded to 0 decimal places in main (humidity, wind
speed, direction and gust, snow depth, HN24). -/
def round0_elements : List String :=
  ["wind_speed", "WSPD", "wind_direction", "RHUM", "relative_humidity", "WDIR",
   "wind_gust", "SNWD", "snow_depth", "hn24"]

/-- Elements rounded to 1 decimal place in main (air temperature,
barometric pressure). -/
def round1_elements : List String := ["TOBS", "air_temp", "PRES", "pressure"]

/-- Elements rounded to 2 decimal places in main (precipitation
accumulation). -/
def round2_elements : List String := ["PREC", "precip_accum"]

/-- The precision massaging block of main, applied to a present
value. -/
def massage_precision (element_cd : String) (v : ℚ) : ℚ :=
  if element_cd ∈ round0_elements then (pyRoundInt v : ℚ)
  else if element_cd ∈ round1_elements then pyRound 1 v
  else if element_cd ∈ round2_elements then pyRound 2 v
  else v

/-- One iteration of the final loop of main: skip unknown element
codes and absent values, convert NRCS values when metric, apply
precision massaging, then write the cell at the mapped position. -/
def process_wx_element (provider units : String) (iem : List (String × String))
    (fm : List (String × Nat)) (final_data : List Cell) (p : String × Option ℚ) :
    List Cell :=
  match lookupKey iem p.1 with
  | none => final_data
  | some counterpart =>
    match p.2 with
    | none => final_data
    | some v =>
      let v1 := if provider = "nrcs" ∧ units = "metric" then
          convert_nrcs_units_to_metric p.1 v else v
      let v2 := massage_precision p.1 v1
      final_data.set (fidx fm counterpart) (Cell.num v2)

/-- The final loop of main over the fetched data mapping. -/
def process_wx_data (provider units : String) (iem : List (String × String))
    (fm : List (String × Nat)) (wx_data : List (String × Option ℚ))
    (final_data : List Cell) : List Cell :=
  wx_data.foldl (process_wx_element provider units iem fm) final_data

/-- The record assembly portion of main: initialize the 29 cell
record, switch unit labels to metric when configured (for non python
providers), write the identity and time cells, then process the
fetched data mapping. -/
def assemble (provider units location_uuid obDate obTime tzname : String)
    (wx_data : List (String × Option ℚ)) : List Cell :=
  let fm := (setup_infoex_fields_mapping location_uuid).1
  let final_data := (setup_infoex_fields_mapping location_uuid).2
  let iem := setup_infoex_counterparts_mapping provider
  let final_data := if provider ≠ "python" ∧ units = "metric" then
      switch_units_to_metric final_data fm else final_data
  let final_data := final_data.set (fidx fm "Location UUID") (Cell.str location_uuid)
  let final_data := final_data.set (fidx fm "obDate") (Cell.str obDate)
  let final_data := final_data.set (fidx fm "obTime") (Cell.str obTime)
  let final_data := final_data.set (fidx fm "timeZone") (Cell.str tzname)
  process_wx_data provider units iem fm wx_data final_data

/- ### Record length lemmas -/

theorem setup_infoex_fields_mapping_length (location_uuid : String) :
    (setup_infoex_fields_mapping location_uuid).2.length = 29 := by
  simp [setup_infoex_fields_mapping]

theorem switch_units_to_metric_length (data_map : List Cell)
    (mapping : List (String × Nat)) :
    (switch_units_to_metric data_map mapping).length = data_map.length := by
  simp [switch_units_to_metric]

theorem process_wx_element_length (provider units : String)
    (iem : List (String × String)) (fm : List (String × Nat))
    (final_data : List Cell) (p : String × Option ℚ) :
    (process_wx_element provider units iem fm final_data p).length = final_data.length := by
  unfold process_wx_element
  split
  · rfl
  · split
    · rfl
    · simp

theorem process_wx_data_length (provider units : String)
    (iem : List (String × String)) (fm : List (String × Nat))
    (wx_data : List (String × Option ℚ)) (final_data : List Cell) :
    (process_wx_data provider units iem fm wx_data final_data).length =
      final_data.length := by
  unfold process_wx_data
  induction wx_data generalizing final_data with
  | nil => rfl
  | cons p rest ih =>
    rw [List.foldl_cons, ih, process_wx_element_length]

theorem assemble_length (provider units location_uuid obDate obTime tzname : String)
    (wx_data : List (String × Option ℚ)) :
    (assemble provider units location_uuid obDate obTime tzname wx_data).length = 29 := by
  unfold assemble
  rw [process_wx_data_length]
  simp only [List.length_set]
  split
  · rw [switch_units_to_metric_length, setup_infoex_fields_mapping_length]
  · rw [setup_infoex_fields_mapping_length]

/- ### Configuration setup -/

/-- The station section of the ini file, as consumed by setup_config.
Optional fields model keys that may be missing from the file;
desired_data is the element list denoted by the comma separated
string. -/
structure ConfigFile where
  provider : String
  station_id : String
  units : String
  desired_data : List String
  token : String
  path : String
  tz : Option String
  hn24 : Option String
  wind_mode : Option String
  deriving DecidableEq, Repr

/-- The final sanity check of setup_config: no present configuration
value may be empty. -/
def emptyConfigValue (c : ConfigFile) : Bool :=
  c.provider = "" ∨ c.station_id = "" ∨ c.units = "" ∨ c.desired_data = [] ∨
    c.token = "" ∨ c.path = "" ∨ c.tz = some "" ∨ c.hn24 = some "" ∨
    c.wind_mode = some ""

/-- Source setup_config, with pytz timezone validation abstracted as
the predicate isValidTZ. Fatal sys.exit paths are Except.error. Note
that the units value is stored without any validation. -/
def setup_config (isValidTZ : String → Bool) (c : ConfigFile) : Except String Station :=
  if ¬(c.provider = "nrcs" ∨ c.provider = "mesowest" ∨ c.provider = "python") then
    Except.error "Please specify either nrcs or mesowest as the station type."
  else
    let tzname := c.tz.getD "America/Los_Angeles"
    if ¬isValidTZ tzname then Except.error "is not a valid timezone"
    else
      match (match c.hn24 with
             | some s => if s = "true" then some true
                         else if s = "false" then some false else none
             | none => some false) with
      | none => Except.error "hn24 must be either true or false"
      | some hn24v =>
        match (match c.wind_mode with
               | some s => if s = "normal" ∨ s = "average" then some s else none
               | none => some "normal") with
        | none => Except.error "wind_mode must be either normal or average"
        | some wind_mode =>
          let n : ℤ := 3
          let n := if hn24v then 24 else n
          let n := if wind_mode = "average" then 24 else n
          if emptyConfigValue c then Except.error "Config value is empty"
          else Except.ok
            { provider := c.provider, units := c.units,
              desired_data := c.desired_data, hn24 := hn24v,
              wind_mode := wind_mode, num_hrs_to_fetch := n, tz := tzname }

/-- True when setup_config aborted the run (sys.exit before any
fetch). -/
def isFatal (e : Except String Station) : Bool :=
  match e with
  | Except.error _ => true
  | Except.ok _ => false

/- ### Fetch window -/

/-- Microsecond component of a local wall-clock instant measured in
microseconds. -/
def wcMicrosecond (t : ℤ) : ℤ := t % 1000000

/-- Second component. -/
def wcSecond (t : ℤ) : ℤ := (t / 1000000) % 60

/-- Minute component. -/
def wcMinute (t : ℤ) : ℤ := (t / 60000000) % 60

/-- Source setup_time_values: floor the current time to the hour by
subtracting a timedelta of its minute (mod 60), second and microsecond
components, then step back num_hrs_to_fetch hours for the begin
bound. -/
def setup_time_values (num_hrs_to_fetch : ℤ) (now : ℤ) : ℤ × ℤ :=
  let end_date := now -
    ((wcMinute now % 60) * 60000000 + wcSecond now * 1000000 + wcMicrosecond now)
  let begin_date := end_date - num_hrs_to_fetch * 3600000000
  (begin_date, end_date)

/- ### Orchestrator -/

/-- The tail of main after setup_config: compute the fetch window,
obtain the raw data from the provider (transports abstracted as
parameters: nrcs_fetch for the SOAP service, mw_observations with
mw_pos for the parsed REST response, custom_data for the external
python program), assemble the record, and emit it only when the
fetched mapping is non-empty (the `if infoex[wx_data]` guard). Date
and time formatting (strftime) is abstracted by fmtDate and
fmtTime. -/
def run_pipeline (isValidTZ : String → Bool) (c : ConfigFile) (location_uuid : String)
    (now : ℤ) (nrcs_fetch : String → List RawSample)
    (mw_observations : List (String × List (Option ℚ))) (mw_pos : Nat)
    (custom_data : List (String × Option ℚ))
    (fmtDate fmtTime : ℤ → String) : Except String (Option (List Cell)) :=
  match setup_config isValidTZ c with
  | Except.error m => Except.error m
  | Except.ok station =>
    let tv := setup_time_values station.num_hrs_to_fetch now
    let wx_data :=
      if station.provider = "nrcs" then
        get_nrcs_data station.desired_data nrcs_fetch
      else if station.provider = "mesowest" then
        get_mesowest_data station mw_observations mw_pos
      else custom_data
    let record := assemble station.provider station.units location_uuid
      (fmtDate tv.2) (fmtTime tv.2) station.tz wx_data
    if wx_data.isEmpty then Except.ok none else Except.ok (some record)

/- ### Configuration and pipeline lemmas -/

theorem setup_config_num_hrs (isValidTZ : String → Bool) (c : ConfigFile) (st : Station)
    (h : setup_config isValidTZ c = Except.ok st) :
    st.num_hrs_to_fetch = if st.hn24 ∨ st.wind_mode = "average" then 24 else 3 := by
  unfold setup_config at h
  by_cases hp : c.provider = "nrcs" ∨ c.provider = "mesowest" ∨ c.provider = "python"
  · rw [if_neg (not_not_intro hp)] at h
    by_cases hv : isValidTZ (c.tz.getD "America/Los_Angeles") = true
    · simp only [hv, not_true_eq_false, if_false] at h
      split at h
      · exact absurd h (by simp)
      · split at h
        · exact absurd h (by simp)
        · rename_i _ hn24v _ _ wind_mode _
          split at h
          · exact absurd h (by simp)
          · injection h with h
            subst h
            by_cases hw : wind_mode = "average" <;> by_cases hh : hn24v <;>
              simp [hw, hh]
    · simp only [hv] at h
      simp at h
  · rw [if_pos (by simpa using hp)] at h
    exact absurd h (by simp)

theorem setup_config_fatal_tz (isValidTZ : String → Bool) (c : ConfigFile)
    (h : isValidTZ (c.tz.getD "America/Los_Angeles") = false) :
    isFatal (setup_config isValidTZ c) = true := by
  unfold setup_config
  split
  · rfl
  · simp [h, isFatal]

theorem setup_config_fatal_wind (isValidTZ : String → Bool) (c : ConfigFile)
    (w : String) (h : c.wind_mode = some w) (h1 : w ≠ "normal") (h2 : w ≠ "average") :
    isFatal (setup_config isValidTZ c) = true := by
  have hw : ¬(w = "normal" ∨ w = "average") := by tauto
  unfold setup_config
  simp only [h]
  split
  · rfl
  · split
    · rfl
    · split
      · rfl
      · simp [hw, isFatal]

theorem run_pipeline_fatal (isValidTZ : String → Bool) (c : ConfigFile)
    (location_uuid : String) (now : ℤ) (nrcs_fetch : String → List RawSample)
    (mw_observations : List (String × List (Option ℚ))) (mw_pos : Nat)
    (custom_data : List (String × Option ℚ)) (fmtDate fmtTime : ℤ → String)
    (m : String) (h : setup_config isValidTZ c = Except.error m) :
    run_pipeline isValidTZ c location_uuid now nrcs_fetch mw_observations mw_pos
      custom_data fmtDate fmtTime = Except.error m := by
  unfold run_pipeline
  rw [h]

theorem foldl_setKey_ne_nil (l : List String) (f : String → Option ℚ) :
    ∀ init : List (String × Option ℚ), init ≠ [] →
      l.foldl (fun r e => setKey r e (f e)) init ≠ [] := by
  induction l with
  | nil => intro init h; simpa using h
  | cons e rest ih =>
    intro init _
    rw [List.foldl_cons]
    exact ih _ (setKey_ne_nil _ _ _)

theorem get_nrcs_data_ne_nil (desired : List String) (fetch : String → List RawSample)
    (h : desired ≠ []) : get_nrcs_data desired fetch ≠ [] := by
  cases desired with
  | nil => exact absurd rfl h
  | cons e rest =>
    unfold get_nrcs_data
    rw [List.foldl_cons]
    exact foldl_setKey_ne_nil rest _ _ (setKey_ne_nil _ _ _)

theorem mw_element_remote_ne_nil (element_cd units wind_mode : String) (pos : Nat)
    (obs : Option (List (Option ℚ))) (st : MWState) :
    (mw_element element_cd units wind_mode pos obs st).remote ≠ [] := by
  cases obs with
  | none =>
    simp only [mw_element]
    exact setKey_ne_nil _ _ _
  | some series =>
    simp only [mw_element]
    split
    · exact setKey_ne_nil _ _ _
    · rename_i hfalsy
      rw [mw_loop_remote]
      cases hx : series.getD pos none with
      | none => exact absurd (by rw [hx]; rfl) hfalsy
      | some x =>
        rw [if_pos (Nat.zero_le pos), Nat.sub_zero, hx]
        exact setKey_ne_nil _ _ _

theorem mw_foldl_remote_pres (units wind_mode : String) (pos : Nat)
    (obs : List (String × List (Option ℚ))) (l : List String) :
    ∀ st : MWState, st.remote ≠ [] →
      (l.foldl (fun st e => mw_element e units wind_mode pos
        (lookupKey obs (e ++ "_set_1")) st) st).remote ≠ [] := by
  induction l with
  | nil => intro st h; simpa using h
  | cons e rest ih =>
    intro st _
    rw [List.foldl_cons]
    exact ih _ (mw_element_remote_ne_nil _ _ _ _ _ _)

theorem get_mesowest_data_ne_nil (station : Station)
    (obs : List (String × List (Option ℚ))) (pos : Nat)
    (h : station.desired_data ≠ []) : get_mesowest_data station obs pos ≠ [] := by
  unfold get_mesowest_data
  have hst : ∀ (l : List String), l ≠ [] → ∀ st0 : MWState,
      (l.foldl (fun st e => mw_element e station.units station.wind_mode pos
        (lookupKey obs (e ++ "_set_1")) st) st0).remote ≠ [] := by
    intro l hl st0
    cases l with
    | nil => exact absurd rfl hl
    | cons e rest =>
      rw [List.foldl_cons]
      exact mw_foldl_remote_pres _ _ _ _ rest _ (mw_element_remote_ne_nil _ _ _ _ _ _)
  have hr := hst station.desired_data h ⟨[], [], [], [], []⟩
  dsimp only
  split
  · exact setKey_ne_nil _ _ _
  · split
    · exact setKey_ne_nil _ _ _
    · split
      · exact setKey_ne_nil _ _ _
      · split
        · exact setKey_ne_nil _ _ _
        · exact hr

/-- What mw_element records for its own element when pos is the index
of the last sample: the converted value of the last sample, nulled
when that sample is absent or reads zero. Older samples, null or not,
are irrelevant. -/
theorem mw_element_remote_last (element_cd units wind_mode : String)
    (series : List (Option ℚ)) (st : MWState) :
    lookupKey (mw_element element_cd units wind_mode (series.length - 1)
        (some series) st).remote element_cd =
      some (match series.getLastD none with
            | none => none
            | some x => if x = 0 then none else some (mw_convert element_cd units x)) := by
  have hpos : series.getD (series.length - 1) none = series.getLastD none := by
    rw [List.getD_eq_getElem?_getD, ← List.getLast?_eq_getElem?,
      List.getLastD_eq_getLast?]
  simp only [mw_element, hpos]
  cases hx : series.getLastD none with
  | none =>
    rw [if_pos (show pyFalsy none = true from rfl)]
    simp [lookupKey_setKey_self]
  | some x =>
    by_cases h0 : x = 0
    · subst h0
      rw [if_pos (show pyFalsy (some 0) = true by simp [pyFalsy])]
      simp [lookupKey_setKey_self]
    · rw [if_neg (by simp [pyFalsy, h0])]
      rw [mw_loop_remote, if_pos (Nat.zero_le _), Nat.sub_zero, hpos, hx]
      simp [lookupKey_setKey_self, h0]

theorem lookupKey_foldl_setKey_not_mem (f : String → Option ℚ) (k : String) :
    ∀ (l : List String), k ∉ l → ∀ init : List (String × Option ℚ),
      lookupKey (l.foldl (fun r e => setKey r e (f e)) init) k = lookupKey init k := by
  intro l
  induction l with
  | nil => intro _ init; rfl
  | cons e rest ih =>
    intro hk init
    rw [List.foldl_cons, ih (fun hmem => hk (List.mem_cons_of_mem _ hmem)),
      lookupKey_setKey_ne _ _
        (fun he => hk (by rw [he]; exact List.mem_cons_self _ _))]

/-- get_nrcs_data introduces no key beyond the requested element
codes; in particular it never synthesizes an hn24 entry. -/
theorem get_nrcs_data_lookup_not_mem (desired : List String)
    (fetch : String → List RawSample) {k : String} (hk : k ∉ desired) :
    lookupKey (get_nrcs_data desired fetch) k = none := by
  unfold get_nrcs_data
  rw [lookupKey_foldl_setKey_not_mem _ _ _ hk]
  rfl

theorem setup_config_hn24_num_hrs (isValidTZ : String → Bool) (c : ConfigFile)
    (st : Station) (h : setup_config isValidTZ c = Except.ok st)
    (hb : st.hn24 = true) : st.num_hrs_to_fetch = 24 := by
  rw [setup_config_num_hrs isValidTZ c st h, hb]
  simp

/- ### Claim theorems -/

/-- Claim C1, counterexample: the series holds a non-null sample at
timestamp 0 with value 5 and a null sample at timestamp 1. The claimed
reduction (maximum timestamp among NON-NULL samples) would return 5;
the code sorts all samples newest first and returns the top value
without any null filtering, hence returns absent. -/
theorem claim1_counterexample :
    get_nrcs_element [⟨0, some 5⟩, ⟨1, none⟩] = none ∧
    get_nrcs_element [⟨0, some 5⟩, ⟨1, none⟩] ≠ some 5 := by
  have hres : get_nrcs_element [⟨0, some 5⟩, ⟨1, none⟩] = none := rfl
  exact ⟨hres, by rw [hres]; simp⟩

/-- Claim C1, amended: the most recent reduction does not skip null
values. For NRCS it returns the (possibly null) value of a sample
whose timestamp is maximal in the series, in any input order; an empty
series gives absent. For mesowest, with pos the index of the last
sample, it returns the converted value of the sample at the last
position, and a null or zero last sample gives absent regardless of
older samples. -/
theorem claim1_most_recent_amended :
    (∀ values : List RawSample, values = [] → get_nrcs_element values = none) ∧
    (∀ values : List RawSample, values ≠ [] →
      ∃ s, s ∈ values ∧ get_nrcs_element values = s.value ∧
        ∀ t ∈ values, t.dateTime ≤ s.dateTime) ∧
    (∀ (element_cd units wind_mode : String) (series : List (Option ℚ)) (st : MWState),
      series ≠ [] →
      lookupKey (mw_element element_cd units wind_mode (series.length - 1)
          (some series) st).remote element_cd =
        some (match series.getLastD none with
              | none => none
              | some x => if x = 0 then none else some (mw_convert element_cd units x))) := by
  refine ⟨?_, ?_, ?_⟩
  · intro values hv
    subst hv
    rfl
  · intro values hv
    exact get_nrcs_element_eq_max_sample values hv
  · intro element_cd units wind_mode series st _
    exact mw_element_remote_last element_cd units wind_mode series st

/-- Claim C1, witness: on the counterexample series the amended
statement produces the sample at timestamp 1 (value null), whose
timestamp dominates the series. -/
theorem claim1_witness :
    ∃ s, s ∈ [(⟨0, some 5⟩ : RawSample), ⟨1, none⟩] ∧
      get_nrcs_element [⟨0, some 5⟩, ⟨1, none⟩] = s.value ∧
      ∀ t ∈ [(⟨0, some 5⟩ : RawSample), ⟨1, none⟩], t.dateTime ≤ s.dateTime :=
  claim1_most_recent_amended.2.1 [⟨0, some 5⟩, ⟨1, none⟩] (by simp)

/-- Claim C2: for a mesowest snow-height series, when at least one
non-null sample exists, the stored hn24 value is the first non-null
(converted) sample value minus the last non-null (converted) sample
value, with a result below zero clamped to 0.0 (a result of exactly
zero is already 0.0); when no non-null sample exists, the hn24 key is
absent from the output mapping. Conversion is the identity for
non-metric unit systems. -/
theorem claim2_hn24_first_minus_last (units wind_mode : String) (b : Bool)
    (series : List (Option ℚ)) (pos : Nat) :
    (((series.filterMap id).map (mw_convert "snow_depth" units)) ≠ [] →
      lookupKey (get_mesowest_data ⟨"mesowest", units, ["snow_depth"], b, wind_mode, 3, "UTC"⟩
          [("snow_depth_set_1", series)] pos) "hn24" =
        some (some
          (if ((series.filterMap id).map (mw_convert "snow_depth" units)).headD 0 -
              ((series.filterMap id).map (mw_convert "snow_depth" units)).getLastD 0 < 0
           then 0
           else ((series.filterMap id).map (mw_convert "snow_depth" units)).headD 0 -
              ((series.filterMap id).map (mw_convert "snow_depth" units)).getLastD 0))) ∧
    (((series.filterMap id).map (mw_convert "snow_depth" units)) = [] →
      lookupKey (get_mesowest_data ⟨"mesowest", units, ["snow_depth"], b, wind_mode, 3, "UTC"⟩
          [("snow_depth_set_1", series)] pos) "hn24" = none) := by
  constructor
  · intro hne
    rw [mesowest_hn24_lookup, dif_neg hne]
  · intro hnil
    rw [mesowest_hn24_lookup, dif_pos hnil]

/-- Claim C2, witness: raw snow heights 12, null, 9 give
HN24 = 12 − 9 = 3, stored under hn24. -/
theorem claim2_witness :
    lookupKey (get_mesowest_data
        ⟨"mesowest", "english", ["snow_depth"], false, "normal", 3, "UTC"⟩
        [("snow_depth_set_1", [some 12, none, some 9])] 2) "hn24" = some (some 3) := by
  have hconv : ∀ v : ℚ, mw_convert "snow_depth" "english" v = v := by
    intro v
    simp [mw_convert]
  have h := (claim2_hn24_first_minus_last "english" "normal" false
    [some 12, none, some 9] 2).1 (by simp [hconv])
  simp [hconv] at h
  norm_num at h
  exact h

/-- Claim C3: the assembled record always has exactly 29 cells in the
fixed positional order, whatever subset of elements is present; the
field position assignment is a constant independent of the input; and
no operation of the assembler (initialization, metric unit switch,
data processing loop, full assembly) changes the record length. Every
position is always present in the list, holding null or a default
label when no data was written. -/
theorem claim3_record_is_29_cells :
    (∀ u, (setup_infoex_fields_mapping u).2.length = 29) ∧
    (∀ u u', (setup_infoex_fields_mapping u).1 = (setup_infoex_fields_mapping u').1) ∧
    (∀ dm m, (switch_units_to_metric dm m).length = dm.length) ∧
    (∀ p u ie fm wx fd, (process_wx_data p u ie fm wx fd).length = fd.length) ∧
    (∀ p u lu d t z wx, (assemble p u lu d t z wx).length = 29) := by
  refine ⟨?_, ?_, ?_, ?_, ?_⟩
  · exact setup_infoex_fields_mapping_length
  · intro u u'
    rfl
  · exact switch_units_to_metric_length
  · exact process_wx_data_length
  · exact assemble_length

/-- Claim C4: present values are rounded by element category (0
decimal places for humidity, wind speed, wind direction, wind gust,
snow height and HN24; 1 for air temperature and pressure; 2 for
precipitation accumulation), absent values are never rounded and leave
the record untouched, and the three concrete examples round as the
spec states. Rounding is Python round, half to even, on the exact
value. -/
theorem claim4_rounding_categories :
    (∀ e v, e ∈ round0_elements → massage_precision e v = ((pyRoundInt v : ℤ) : ℚ)) ∧
    (∀ e v, e ∈ round1_elements → massage_precision e v = pyRound 1 v) ∧
    (∀ e v, e ∈ round2_elements → massage_precision e v = pyRound 2 v) ∧
    (∀ p u ie fm fd e, process_wx_element p u ie fm fd (e, none) = fd) ∧
    massage_precision "air_temp" 2.3456 = 2.3 ∧
    massage_precision "relative_humidity" 55.7 = 56 ∧
    massage_precision "precip_accum" 1.2345 = 1.23 := by
  refine ⟨?_, ?_, ?_, ?_, ?_, ?_, ?_⟩
  · intro e v h
    unfold massage_precision
    rw [if_pos h]
  · intro e v h
    unfold massage_precision
    have h0 : e ∉ round0_elements := by
      fin_cases h <;> decide
    rw [if_neg h0, if_pos h]
  · intro e v h
    unfold massage_precision
    have h0 : e ∉ round0_elements := by
      fin_cases h <;> decide
    have h1 : e ∉ round1_elements := by
      fin_cases h <;> decide
    rw [if_neg h0, if_neg h1, if_pos h]
  · intro p u ie fm fd e
    unfold process_wx_element
    split
    · rfl
    · rfl
  · unfold massage_precision
    rw [if_neg (by decide), if_pos (by decide)]
    unfold pyRound pyRoundInt
    norm_num
  · unfold massage_precision
    rw [if_pos (by decide)]
    unfold pyRoundInt
    norm_num
  · unfold massage_precision
    rw [if_neg (by decide), if_neg (by decide), if_pos (by decide)]
    unfold pyRound pyRoundInt
    norm_num

/-- Claim C4, witness: the 0-decimal rule applied to the NRCS
humidity code. -/
theorem claim4_witness :
    massage_precision "RHUM" 55.7 = ((pyRoundInt (55.7 : ℚ) : ℤ) : ℚ) :=
  claim4_rounding_categories.1 "RHUM" 55.7 (by decide)

/-- The record positions at which the metric switch changes the
freshly initialized record. -/
def metric_changed_positions : List Nat :=
  (List.range 29).filter (fun i =>
    decide ((switch_units_to_metric (setup_infoex_fields_mapping "loc").2
        (setup_infoex_fields_mapping "loc").1).getD i Cell.null
      ≠ (setup_infoex_fields_mapping "loc").2.getD i Cell.null))

/-- Claim C5, counterexample: the metric switch overwrites ten unit
label cells (indices 5, 7, 9, 11, 13, 16, 21, 24, 26, 28), not
nine. -/
theorem claim5_counterexample :
    metric_changed_positions.length = 10 ∧ metric_changed_positions.length ≠ 9 ∧
    metric_changed_positions = [5, 7, 9, 11, 13, 16, 21, 24, 26, 28] := by
  refine ⟨?_, ?_, ?_⟩ <;> decide

/-- Claim C5, amended: if the unit system is metric, the switch
overwrites exactly the TEN unit label cells with their metric
equivalents, leaves every other cell unchanged, and runs on the
freshly initialized record, before any numeric value has been written
(the initial record contains no numeric cell). -/
theorem claim5_metric_switch_amended (u : String) :
    switch_units_to_metric (setup_infoex_fields_mapping u).2
        (setup_infoex_fields_mapping u).1 =
      ((((((((((setup_infoex_fields_mapping u).2.set 5 (Cell.str "C")).set 7
        (Cell.str "C")).set 9 (Cell.str "C")).set 11 (Cell.str "mm")).set 16
        (Cell.str "cm")).set 13 (Cell.str "m/s")).set 21 (Cell.str "m/s")).set 24
        (Cell.str "C")).set 26 (Cell.str "cm")).set 28 (Cell.str "cm") ∧
    ∀ q : ℚ, Cell.num q ∉ (setup_infoex_fields_mapping u).2 := by
  constructor
  · rfl
  · intro q
    simp [setup_infoex_fields_mapping]

/-- Claim C5, witness: the amended equality at a concrete location
id. -/
theorem claim5_witness :
    switch_units_to_metric (setup_infoex_fields_mapping "w").2
        (setup_infoex_fields_mapping "w").1 =
      ((((((((((setup_infoex_fields_mapping "w").2.set 5 (Cell.str "C")).set 7
        (Cell.str "C")).set 9 (Cell.str "C")).set 11 (Cell.str "mm")).set 16
        (Cell.str "cm")).set 13 (Cell.str "m/s")).set 21 (Cell.str "m/s")).set 24
        (Cell.str "C")).set 26 (Cell.str "cm")).set 28 (Cell.str "cm") :=
  (claim5_metric_switch_amended "w").1

/-- A configuration carrying a nonsense unit system but valid in every
checked respect. -/
def bogus_units_config : ConfigFile :=
  ⟨"mesowest", "STID", "bogus", ["air_temp"], "token", "path",
   some "UTC", none, none⟩

/-- Claim C6, counterexample: setup_config never validates the unit
system. A configuration whose units value is the nonsense string bogus
(not english, metric or imperial) passes configuration setup without
any fatal error. -/
theorem claim6_counterexample :
    isFatal (setup_config (fun _ => true) bogus_units_config) = false ∧
    bogus_units_config.units ≠ "english" ∧
    bogus_units_config.units ≠ "metric" ∧
    bogus_units_config.units ≠ "imperial" := by
  refine ⟨rfl, ?_, ?_, ?_⟩ <;> decide

/-- Claim C6, amended: an invalid timezone name or an invalid wind
mode makes setup_config fail fatally, and any setup_config failure
aborts the pipeline before any fetch is attempted and before any
record is produced; the unit system, however, is not validated at
all. -/
theorem claim6_config_fatal_amended (isValidTZ : String → Bool) (c : ConfigFile) :
    (isValidTZ (c.tz.getD "America/Los_Angeles") = false →
      isFatal (setup_config isValidTZ c) = true) ∧
    (∀ w, c.wind_mode = some w → w ≠ "normal" → w ≠ "average" →
      isFatal (setup_config isValidTZ c) = true) ∧
    (∀ m, setup_config isValidTZ c = Except.error m →
      ∀ location_uuid now nrcs_fetch mw_observations mw_pos custom_data fmtDate fmtTime,
        run_pipeline isValidTZ c location_uuid now nrcs_fetch mw_observations mw_pos
          custom_data fmtDate fmtTime = Except.error m) := by
  refine ⟨?_, ?_, ?_⟩
  · exact setup_config_fatal_tz isValidTZ c
  · intro w hw h1 h2
    exact setup_config_fatal_wind isValidTZ c w hw h1 h2
  · intro m hm location_uuid now nrcs_fetch mw_observations mw_pos custom_data
      fmtDate fmtTime
    exact run_pipeline_fatal isValidTZ c location_uuid now nrcs_fetch mw_observations
      mw_pos custom_data fmtDate fmtTime m hm

/-- Claim C6, witness: with a rejecting timezone validator the setup
is fatal on the bogus-units configuration. -/
theorem claim6_witness :
    isFatal (setup_config (fun _ => false) bogus_units_config) = true :=
  (claim6_config_fatal_amended (fun _ => false) bogus_units_config).1 rfl

/-- Claim C7: the fetch window end is the current time floored to the
hour (it is a multiple of one hour in microseconds and equals now
minus its in-hour remainder), the begin bound is end minus the window
length in hours, and for every accepted configuration the window
length is 24 hours exactly when the HN24 flag or average wind mode is
enabled and 3 hours otherwise. -/
theorem claim7_fetch_window (now n : ℤ) :
    ((setup_time_values n now).2 % 3600000000 = 0 ∧
     (setup_time_values n now).2 = now - now % 3600000000 ∧
     (setup_time_values n now).1 = (setup_time_values n now).2 - n * 3600000000) ∧
    (∀ (isValidTZ : String → Bool) (c : ConfigFile) (st : Station),
      setup_config isValidTZ c = Except.ok st →
      st.num_hrs_to_fetch = if st.hn24 ∨ st.wind_mode = "average" then 24 else 3) := by
  constructor
  · unfold setup_time_values wcMinute wcSecond wcMicrosecond
    refine ⟨?_, ?_, ?_⟩ <;> simp only [] <;> omega
  · intro isValidTZ c st h
    exact setup_config_num_hrs isValidTZ c st h

/-- A fully valid configuration with the HN24 flag enabled. -/
def hn24_config : ConfigFile :=
  ⟨"nrcs", "STID", "english", ["TOBS"], "token", "path",
   some "UTC", some "true", none⟩

/-- Claim C7, witness: a concrete window end lands on the hour
boundary, and the accepted HN24-enabled configuration yields a
24-hour window (3 would be the flag-off value). -/
theorem claim7_witness :
    (setup_time_values 3 7284999999).2 % 3600000000 = 0 ∧
    (⟨"nrcs", "english", ["TOBS"], true, "normal", 24, "UTC"⟩ : Station).num_hrs_to_fetch =
      if (⟨"nrcs", "english", ["TOBS"], true, "normal", 24, "UTC"⟩ : Station).hn24 ∨
         (⟨"nrcs", "english", ["TOBS"], true, "normal", 24, "UTC"⟩ : Station).wind_mode =
           "average" then 24 else 3 :=
  ⟨(claim7_fetch_window 7284999999 3).1.1,
   (claim7_fetch_window 0 0).2 (fun _ => true) hn24_config
     ⟨"nrcs", "english", ["TOBS"], true, "normal", 24, "UTC"⟩ rfl⟩

/-- A valid configuration for the custom external-program provider. -/
def python_config : ConfigFile :=
  ⟨"python", "STID", "english", ["x"], "token", "path",
   some "UTC", none, none⟩

/-- Claim C8, counterexample: with the custom python provider and an
external program returning an empty mapping, the run does not fail
fatally yet produces no record at all (the final guard on a non-empty
wx_data suppresses the record), so a successful invocation without a
record is possible. -/
theorem claim8_counterexample :
    run_pipeline (fun _ => true) python_config "LOC" 0 (fun _ => []) [] 0 []
      (fun _ => "01/01/2026") (fun _ => "00:00") = Except.ok none := rfl

/-- Claim C8, amended: for the nrcs and mesowest providers, every
invocation that passes configuration setup produces exactly one
29-cell record, however sparse the upstream data was (each requested
element contributes a key even when all of its samples are missing);
only the custom python provider can return an empty mapping, in which
case the run succeeds without producing a record. -/
theorem claim8_one_record_amended (isValidTZ : String → Bool) (c : ConfigFile)
    (location_uuid : String) (now : ℤ) (nrcs_fetch : String → List RawSample)
    (mw_observations : List (String × List (Option ℚ))) (mw_pos : Nat)
    (custom_data : List (String × Option ℚ)) (fmtDate fmtTime : ℤ → String)
    (st : Station) (h : setup_config isValidTZ c = Except.ok st)
    (hp : st.provider = "nrcs" ∨ st.provider = "mesowest")
    (hd : st.desired_data ≠ []) :
    ∃ r, run_pipeline isValidTZ c location_uuid now nrcs_fetch mw_observations mw_pos
        custom_data fmtDate fmtTime = Except.ok (some r) ∧ r.length = 29 := by
  unfold run_pipeline
  rw [h]
  dsimp only
  rcases hp with hp | hp
  · rw [if_pos hp]
    have hne : get_nrcs_data st.desired_data nrcs_fetch ≠ [] :=
      get_nrcs_data_ne_nil st.desired_data nrcs_fetch hd
    rw [if_neg (by simpa [List.isEmpty_iff] using hne)]
    exact ⟨_, rfl, assemble_length _ _ _ _ _ _ _⟩
  · have hp' : ¬(st.provider = "nrcs") := by
      rw [hp]
      decide
    rw [if_neg hp', if_pos hp]
    have hne : get_mesowest_data st mw_observations mw_pos ≠ [] :=
      get_mesowest_data_ne_nil st mw_observations mw_pos hd
    rw [if_neg (by simpa [List.isEmpty_iff] using hne)]
    exact ⟨_, rfl, assemble_length _ _ _ _ _ _ _⟩

/-- Claim C8, witness: a concrete nrcs run whose upstream returns no
samples at all still yields exactly one 29-cell (sparse) record. -/
theorem claim8_witness :
    ∃ r, run_pipeline (fun _ => true) hn24_config "LOC" 0 (fun _ => []) [] 0 []
        (fun _ => "01/01/2026") (fun _ => "00:00") = Except.ok (some r) ∧
      r.length = 29 :=
  claim8_one_record_amended (fun _ => true) hn24_config "LOC" 0 (fun _ => []) [] 0 []
    (fun _ => "01/01/2026") (fun _ => "00:00")
    ⟨"nrcs", "english", ["TOBS"], true, "normal", 24, "UTC"⟩ rfl (Or.inl rfl)
    (by decide)

/-- Claim C9: in the mesowest provider, whenever the raw sample at the
most recent position is Python-falsy (absent, or a legitimate zero
reading such as 0.0), the post-loop check nulls the element in the
result mapping; since a zero reading is non-null yet falsy, a zero
measurement and genuine absence are indistinguishable in the
output. -/
theorem claim9_zero_reading_absent :
    (∀ (element_cd units wind_mode : String) (pos : Nat) (series : List (Option ℚ))
       (st : MWState), pyFalsy (series.getD pos none) = true →
       lookupKey (mw_element element_cd units wind_mode pos (some series) st).remote
         element_cd = some none) ∧
    pyFalsy (some 0) = true ∧ pyFalsy none = true ∧
    (some (0 : ℚ)) ≠ (none : Option ℚ) := by
  refine ⟨?_, by simp [pyFalsy], rfl, by simp⟩
  intro element_cd units wind_mode pos series st hfalsy
  simp only [mw_element]
  rw [if_pos hfalsy]
  simp [lookupKey_setKey_self]

/-- Claim C9, witness: a series ending in the legitimate measurement
0.0 is reduced to absent. -/
theorem claim9_witness :
    lookupKey (mw_element "air_temp" "english" "normal" 1 (some [some 3, some 0])
        ⟨[], [], [], [], []⟩).remote "air_temp" = some none :=
  claim9_zero_reading_absent.1 "air_temp" "english" "normal" 1 [some 3, some 0]
    ⟨[], [], [], [], []⟩ (by simp [pyFalsy])

/-- Claim C10: the HN24 configuration flag influences nothing but the
fetch window length. get_mesowest_data never consults it (its output
is identical for both flag values); for a mesowest snow-depth request
the hn24 key is emitted exactly when a non-null sample exists, for
either flag value; get_nrcs_data never creates an hn24 key (its keys
come only from the requested element codes); and an accepted
configuration with the flag on fetches 24 hours. -/
theorem claim10_hn24_flag_only_window :
    (∀ (st : Station) (obs : List (String × List (Option ℚ))) (pos : Nat) (b1 b2 : Bool),
      get_mesowest_data { st with hn24 := b1 } obs pos =
        get_mesowest_data { st with hn24 := b2 } obs pos) ∧
    (∀ (units wind_mode : String) (b : Bool) (series : List (Option ℚ)) (pos : Nat),
      series.filterMap id ≠ [] →
      lookupKey (get_mesowest_data ⟨"mesowest", units, ["snow_depth"], b, wind_mode, 3, "UTC"⟩
          [("snow_depth_set_1", series)] pos) "hn24" ≠ none) ∧
    (∀ (desired : List String) (fetch : String → List RawSample),
      "hn24" ∉ desired → lookupKey (get_nrcs_data desired fetch) "hn24" = none) ∧
    (∀ (isValidTZ : String → Bool) (c : ConfigFile) (st : Station),
      setup_config isValidTZ c = Except.ok st → st.hn24 = true →
      st.num_hrs_to_fetch = 24) := by
  refine ⟨?_, ?_, ?_, ?_⟩
  · intro st obs pos b1 b2
    cases st
    rfl
  · intro units wind_mode b series pos hne
    rw [mesowest_hn24_lookup,
      dif_neg (by simpa [List.map_eq_nil_iff] using hne)]
    simp
  · intro desired fetch hk
    exact get_nrcs_data_lookup_not_mem desired fetch hk
  · intro isValidTZ c st h hb
    exact setup_config_hn24_num_hrs isValidTZ c st h hb

/-- Claim C10, witness: with the flag disabled an hn24 value is still
emitted for a snow-depth series holding one non-null sample. -/
theorem claim10_witness :
    lookupKey (get_mesowest_data
        ⟨"mesowest", "english", ["snow_depth"], false, "normal", 3, "UTC"⟩
        [("snow_depth_set_1", [some 5])] 0) "hn24" ≠ none :=
  claim10_hn24_flag_only_window.2.1 "english" "normal" false [some 5] 0 (by simp)

end AutoWx
